import Mathlib

/-!
Query 12 streaming kernels (`query12_kernel.cpp`).

A shallow embedding of the kernels submitted by `SubmitQuery12` whose bodies
are in this source file: the two table producers and the `Compute` (aggregate)
kernel. The pipes are modelled as the sequence of envelopes written (producers)
or the sequence of read outcomes (`Compute`). The `Join` kernel delegates to
`MergeJoiner`, which lives in another file, and is not modelled.
-/

namespace Query12

/-! ## Data model -/

/-- Modelled from the spec: `DBDate` is declared in a header that is not part of
the sources; the kernel only compares dates and pads with `0`. -/
abbrev DBDate := Nat

/-- Modelled from the spec: `DBIdentifier` (the order key type, `u64` in the
spec) is declared in a header that is not part of the sources. -/
abbrev DBIdentifier := Nat

/-- Modelled from the spec: `DBDecimal` is declared in a header that is not part
of the sources; the spec describes it as a counter type wide enough for the
largest table, so additions of `0`/`1` are exact integer additions. -/
abbrev DBDecimal := Int

/-- The fixed-width batch `NTuple<N, T>`; `data.get<i>()` is `data i`. -/
abbrev NTuple (N : Nat) (T : Type) := Fin N → T

/-- Modelled from the spec: `LineItemRow`, fields in constructor order
`LineItemRow(valid, key, shipmode, commitdate, shipdate, receiptdate)`. -/
structure LineItemRow where
  valid : Bool
  orderkey : DBIdentifier
  shipmode : Int
  commitdate : DBDate
  shipdate : DBDate
  receiptdate : DBDate
deriving DecidableEq

/-- Modelled from the spec: `OrdersRow`, fields in constructor order
`OrdersRow(valid, key, orderpriority)`. -/
structure OrdersRow where
  valid : Bool
  orderkey : DBIdentifier
  orderpriority : Int
deriving DecidableEq

/-- Modelled from the spec: `JoinedRow`, with the fields `Compute` reads. -/
structure JoinedRow where
  valid : Bool
  shipmode : Int
  commitdate : DBDate
  shipdate : DBDate
  receiptdate : DBDate
  orderpriority : Int
deriving DecidableEq

/-- Modelled from the spec: the pipe envelope `{ done, valid, payload }`, built in
the source as `XPipeData(done, valid, data)`. -/
structure StreamingData (N : Nat) (T : Type) where
  done : Bool
  valid : Bool
  data : NTuple N T

abbrev LineItemRowPipeData (N : Nat) := StreamingData N LineItemRow
abbrev OrdersRowPipeData (N : Nat) := StreamingData N OrdersRow
abbrev JoinedRowPipeData (N : Nat) := StreamingData N JoinedRow

/-- The query constants captured by the `Compute` kernel. -/
structure QueryParams where
  low_date : DBDate
  high_date : DBDate
  shipmode1 : Int
  shipmode2 : Int
deriving DecidableEq

/-! ## `UnrolledLoop<0, N>` -/

/-- The first `k` iterations of `UnrolledLoop<0, N>(f)`: `f 0`, then `f 1`, ... -/
def UnrolledLoopAux {σ : Type} (N : Nat) (f : Fin N → σ → σ) : (k : Nat) → k ≤ N → σ → σ
  | 0, _, s => s
  | k + 1, h, s => f ⟨k, h⟩ (UnrolledLoopAux N f k (Nat.le_of_succ_le h) s)

/-- `UnrolledLoop<0, N>(f)`: runs the body for `i = 0, 1, ..., N - 1` in order. -/
def UnrolledLoop {σ : Type} (N : Nat) (f : Fin N → σ → σ) (s : σ) : σ :=
  UnrolledLoopAux N f N (Nat.le_refl N) s

/-! ## The `Compute` kernel (source lines 159-243) -/

/-- The four values one unrolled iteration stores at index `i` of the four
`*_local_tmp` arrays. -/
structure RowTmp where
  high_line_count1 : DBDecimal
  low_line_count1 : DBDecimal
  high_line_count2 : DBDecimal
  low_line_count2 : DBDecimal
deriving DecidableEq

/-- The four arrays `high_line_count1_local_tmp`, ... of width `N`. -/
structure TmpArrays (N : Nat) where
  high_line_count1_local_tmp : Fin N → DBDecimal
  high_line_count2_local_tmp : Fin N → DBDecimal
  low_line_count1_local_tmp : Fin N → DBDecimal
  low_line_count2_local_tmp : Fin N → DBDecimal

/-- The arrays as declared, before the first unrolled loop has assigned every
slot (the slots are all written before they are read). -/
def TmpArrays.declared (N : Nat) : TmpArrays N :=
  ⟨fun _ => 0, fun _ => 0, fun _ => 0, fun _ => 0⟩

/-- Store the four values of one iteration at index `i`. -/
def TmpArrays.store {N : Nat} (t : TmpArrays N) (i : Fin N) (v : RowTmp) : TmpArrays N :=
  { high_line_count1_local_tmp := Function.update t.high_line_count1_local_tmp i v.high_line_count1
    high_line_count2_local_tmp := Function.update t.high_line_count2_local_tmp i v.high_line_count2
    low_line_count1_local_tmp := Function.update t.low_line_count1_local_tmp i v.low_line_count1
    low_line_count2_local_tmp := Function.update t.low_line_count2_local_tmp i v.low_line_count2 }

/-- The local accumulators of `Compute`. -/
structure Locals where
  high_line_count1_local : DBDecimal
  high_line_count2_local : DBDecimal
  low_line_count1_local : DBDecimal
  low_line_count2_local : DBDecimal
deriving DecidableEq

/-- The accumulators as initialised at lines 161-162. -/
def Locals.init : Locals := ⟨0, 0, 0, 0⟩

/-- Body of the first unrolled loop (lines 179-226) for one row: the values
assigned to the four temporaries of that row. `done` is the captured loop
variable. -/
def rowContribution (q : QueryParams) (done : Bool) (row : JoinedRow) : RowTmp :=
  let is_shipmode1 : Bool := decide (row.shipmode = q.shipmode1)
  let is_shipmode2 : Bool := decide (row.shipmode = q.shipmode2)
  let valid_shipmode : Bool := is_shipmode1 || is_shipmode2
  let valid_commitdate : Bool := decide (row.commitdate < row.receiptdate)
  let valid_shipdate : Bool := decide (row.shipdate < row.commitdate)
  let receipt_within_year_of_date : Bool :=
    decide (row.receiptdate ≥ q.low_date) && decide (row.receiptdate < q.high_date)
  let urgent_or_high : Bool :=
    decide (row.orderpriority = 1) || decide (row.orderpriority = 2)
  let do_computation : Bool := !done && row.valid
    && valid_shipmode && valid_commitdate && valid_shipdate
    && receipt_within_year_of_date
  if do_computation then
    let high_line_val : DBDecimal := if urgent_or_high then 1 else 0
    let low_line_val : DBDecimal := if urgent_or_high then 0 else 1
    { high_line_count1 := if is_shipmode1 then high_line_val else 0
      low_line_count1 := if is_shipmode1 then low_line_val else 0
      high_line_count2 := if is_shipmode2 then high_line_val else 0
      low_line_count2 := if is_shipmode2 then low_line_val else 0 }
  else
    { high_line_count1 := 0
      low_line_count1 := 0
      high_line_count2 := 0
      low_line_count2 := 0 }

/-- Body of the second unrolled loop (lines 229-234) at index `i`. -/
def reduceStep {N : Nat} (t : TmpArrays N) (i : Fin N) (a : Locals) : Locals :=
  { high_line_count1_local := a.high_line_count1_local + t.high_line_count1_local_tmp i
    low_line_count1_local := a.low_line_count1_local + t.low_line_count1_local_tmp i
    high_line_count2_local := a.high_line_count2_local + t.high_line_count2_local_tmp i
    low_line_count2_local := a.low_line_count2_local + t.low_line_count2_local_tmp i }

/-- One outcome of `JoinedProducerPipe::read(pipe_valid)`: the success flag of
the non-blocking read and the value returned. -/
structure PipeRead (N : Nat) where
  pipe_valid : Bool
  joined_data : JoinedRowPipeData N

/-- One iteration of the `do { ... } while (!done)` loop (lines 165-236):
the new accumulators and the value of `done`. -/
def loopBody {N : Nat} (q : QueryParams) (rd : PipeRead N) (acc : Locals) : Locals × Bool :=
  let pipe_valid := rd.pipe_valid
  let joined_data := rd.joined_data
  let done : Bool := joined_data.done && pipe_valid
  if !done && pipe_valid then
    let tmp : TmpArrays N :=
      UnrolledLoop N (fun i t => t.store i (rowContribution q done (joined_data.data i)))
        (TmpArrays.declared N)
    (UnrolledLoop N (reduceStep tmp) acc, done)
  else
    (acc, done)

/-- The `do { ... } while (!done)` loop over the sequence of read outcomes.
`none`: the reads run out before a `done` envelope is read (the kernel keeps
polling and never writes its results). -/
def computeLoop {N : Nat} (q : QueryParams) : List (PipeRead N) → Locals → Option Locals
  | [], _ => none
  | rd :: rest, acc =>
    let r := loopBody q rd acc
    if !r.2 then computeLoop q rest r.1 else some r.1

/-- The two output buffers written at lines 239-242. -/
structure Q12Output where
  high_line_count : List DBDecimal
  low_line_count : List DBDecimal
deriving DecidableEq

/-- The write-back of the local accumulators (lines 239-242). -/
def writeBack (a : Locals) : Q12Output :=
  { high_line_count := [a.high_line_count1_local, a.high_line_count2_local]
    low_line_count := [a.low_line_count1_local, a.low_line_count2_local] }

/-- The `Compute` kernel: accumulate until `done`, then write back. -/
def Compute {N : Nat} (q : QueryParams) (s : List (PipeRead N)) : Option Q12Output :=
  (computeLoop q s Locals.init).map writeBack

/-! ## The producer kernels (source lines 62-83 and 94-111) -/

/-- The range of `size_t`, the type of the loop index `i` and of the row count. -/
def SIZE_T_RANGE : Nat := 2 ^ 64

/-- Addition of `size_t` values. -/
def sizeAdd (a b : Nat) : Nat := (a + b) % SIZE_T_RANGE

/-- The LINEITEM columns behind the read accessors, with the row count. -/
structure LineItemTable where
  rows : Nat
  orderkey : List DBIdentifier
  shipmode : List Int
  commitdate : List DBDate
  shipdate : List DBDate
  receiptdate : List DBDate
deriving DecidableEq

/-- The ORDERS columns behind the read accessors, with the row count. -/
structure OrdersTable where
  rows : Nat
  orderkey : List DBIdentifier
  orderpriority : List Int
deriving DecidableEq

/-- The value a slot of a freshly declared `NTuple` of `LineItemRow` holds
before the unrolled loop assigns it (every slot is assigned). -/
def LineItemRow.declared : LineItemRow := ⟨false, 0, 0, 0, 0, 0⟩

/-- The value a slot of a freshly declared `NTuple` of `OrdersRow` holds
before the unrolled loop assigns it (every slot is assigned). -/
def OrdersRow.declared : OrdersRow := ⟨false, 0, 0⟩

/-- Body of the unrolled loop of `LineItemProducer` (lines 67-78): the row stored
in slot `j` of the batch starting at `i`. `maxKey` stands for
`std::numeric_limits<DBIdentifier>::max()`. -/
def lineItemSlot (maxKey : DBIdentifier) (t : LineItemTable) (i j : Nat) : LineItemRow :=
  let in_range : Bool := decide (sizeAdd i j < t.rows)
  let key : DBIdentifier := if in_range then t.orderkey.getD (sizeAdd i j) 0 else maxKey
  let shipmode : Int := if in_range then t.shipmode.getD (sizeAdd i j) 0 else 0
  let commitdate : DBDate := if in_range then t.commitdate.getD (sizeAdd i j) 0 else 0
  let shipdate : DBDate := if in_range then t.shipdate.getD (sizeAdd i j) 0 else 0
  let receiptdate : DBDate := if in_range then t.receiptdate.getD (sizeAdd i j) 0 else 0
  LineItemRow.mk in_range key shipmode commitdate shipdate receiptdate

/-- The `for (size_t i = 0; i < l_rows; i += N)` loop of `LineItemProducer`,
returning the envelopes written to `LineItemProducerPipe`, in order.
`none`: the loop has not finished within `fuel` iterations. -/
def LineItemProducerLoop (maxKey : DBIdentifier) (N : Nat) (t : LineItemTable) :
    Nat → Nat → Option (List (LineItemRowPipeData N))
  | 0, _ => none
  | fuel + 1, i =>
    if i < t.rows then
      let data : NTuple N LineItemRow :=
        UnrolledLoop N (fun j d => Function.update d j (lineItemSlot maxKey t i j))
          (fun _ => LineItemRow.declared)
      (LineItemProducerLoop maxKey N t fuel (sizeAdd i N)).map
        (fun out => (⟨false, true, data⟩ : LineItemRowPipeData N) :: out)
    else some []

/-- The `LineItemProducer` kernel with batch width `N = kLineItemJoinWindowSize`. -/
def LineItemProducer (maxKey : DBIdentifier) (N : Nat) (t : LineItemTable) (fuel : Nat) :
    Option (List (LineItemRowPipeData N)) :=
  LineItemProducerLoop maxKey N t fuel 0

/-- Body of the unrolled loop of `OrdersProducer` (lines 99-106). -/
def ordersSlot (maxKey : DBIdentifier) (t : OrdersTable) (i j : Nat) : OrdersRow :=
  let in_range : Bool := decide (sizeAdd i j < t.rows)
  let key : DBIdentifier := if in_range then t.orderkey.getD (sizeAdd i j) 0 else maxKey
  let orderpriority : Int := if in_range then t.orderpriority.getD (sizeAdd i j) 0 else 0
  OrdersRow.mk in_range key orderpriority

/-- The `for (size_t i = 0; i < o_rows; i += N)` loop of `OrdersProducer`,
returning the envelopes written to `OrdersProducerPipe`, in order.
`none`: the loop has not finished within `fuel` iterations. -/
def OrdersProducerLoop (maxKey : DBIdentifier) (N : Nat) (t : OrdersTable) :
    Nat → Nat → Option (List (OrdersRowPipeData N))
  | 0, _ => none
  | fuel + 1, i =>
    if i < t.rows then
      let data : NTuple N OrdersRow :=
        UnrolledLoop N (fun j d => Function.update d j (ordersSlot maxKey t i j))
          (fun _ => OrdersRow.declared)
      (OrdersProducerLoop maxKey N t fuel (sizeAdd i N)).map
        (fun out => (⟨false, true, data⟩ : OrdersRowPipeData N) :: out)
    else some []

/-- The `OrdersProducer` kernel with batch width `N = kOrderJoinWindowSize`. -/
def OrdersProducer (maxKey : DBIdentifier) (N : Nat) (t : OrdersTable) (fuel : Nat) :
    Option (List (OrdersRowPipeData N)) :=
  OrdersProducerLoop maxKey N t fuel 0

/-! ## Specification-side vocabulary -/

/-- A read that makes `Compute` leave its loop: a `done` envelope actually read. -/
def PipeRead.isDone {N : Nat} (rd : PipeRead N) : Bool :=
  rd.joined_data.done && rd.pipe_valid

/-- The stream delivers a `done` envelope at some point. -/
def hasDone {N : Nat} (s : List (PipeRead N)) : Bool := s.any PipeRead.isDone

/-- The read outcomes strictly before the first `done` envelope read. -/
def readsBeforeDone {N : Nat} (s : List (PipeRead N)) : List (PipeRead N) :=
  s.takeWhile (fun rd => !rd.isDone)

/-- The rows of one batch, slot 0 first. -/
def batchRows {N : Nat} (b : JoinedRowPipeData N) : List JoinedRow := List.ofFn b.data

/-- The rows of the envelopes among `l` that were actually read (`pipe_valid`). -/
def rowsOfReads {N : Nat} (l : List (PipeRead N)) : List JoinedRow :=
  ((l.filter (fun rd => rd.pipe_valid)).map (fun rd => batchRows rd.joined_data)).flatten

/-- All rows of all batches read before the `done` envelope. -/
def rowsBeforeDone {N : Nat} (s : List (PipeRead N)) : List JoinedRow :=
  rowsOfReads (readsBeforeDone s)

/-- The valid (non-padding) rows read before the `done` envelope. -/
def validRowsBeforeDone {N : Nat} (s : List (PipeRead N)) : List JoinedRow :=
  (rowsBeforeDone s).filter (fun r => r.valid)

/-- The four structural predicates of the query for shipmode `mode`, on a valid
row: shipmode, both date orderings, receipt date in the window. -/
def qualifies (q : QueryParams) (mode : Int) (r : JoinedRow) : Bool :=
  r.valid && decide (r.shipmode = mode) && decide (r.commitdate < r.receiptdate)
    && decide (r.shipdate < r.commitdate)
    && decide (q.low_date ≤ r.receiptdate) && decide (r.receiptdate < q.high_date)

/-- The priority predicate: `orderpriority` in `{1, 2}`. -/
def urgentOrHigh (r : JoinedRow) : Bool :=
  decide (r.orderpriority = 1) || decide (r.orderpriority = 2)

/-- A row counted as high priority for `mode`. -/
def countsHigh (q : QueryParams) (mode : Int) (r : JoinedRow) : Bool :=
  qualifies q mode r && urgentOrHigh r

/-- A row counted as low priority for `mode`. -/
def countsLow (q : QueryParams) (mode : Int) (r : JoinedRow) : Bool :=
  qualifies q mode r && !urgentOrHigh r

/-- The number of batches `ceil(rows / N)`. -/
def ceilDiv (rows N : Nat) : Nat := (rows + N - 1) / N

/-- Adding the four temporaries of one row to the accumulators (one step of the
reduction, written on rows). -/
def Locals.addTmp (a : Locals) (v : RowTmp) : Locals :=
  { high_line_count1_local := a.high_line_count1_local + v.high_line_count1
    low_line_count1_local := a.low_line_count1_local + v.low_line_count1
    high_line_count2_local := a.high_line_count2_local + v.high_line_count2
    low_line_count2_local := a.low_line_count2_local + v.low_line_count2 }

/-- The accumulators after adding the contributions of `rows`, first row first. -/
def addRows (q : QueryParams) (rows : List JoinedRow) (acc : Locals) : Locals :=
  rows.foldl (fun a r => a.addTmp (rowContribution q false r)) acc

/-- The accumulators after each iteration the `do { ... } while (!done)` loop
executes on the read outcomes `s`, started with accumulators `acc`. -/
def computeTrace {N : Nat} (q : QueryParams) : List (PipeRead N) → Locals → List Locals
  | [], _ => []
  | rd :: rest, acc =>
    let r := loopBody q rd acc
    r.1 :: (if !r.2 then computeTrace q rest r.1 else [])

/-! ## Lemmas on the unrolled loops and the `Compute` loop -/

theorem rowTmp_bool_cases (v m1 m2 c sd lo hi p1 p2 : Bool) :
    (if (!false && v && (m1 || m2) && c && sd && (lo && hi)) = true then
      ({ high_line_count1 := if m1 = true then (if (p1 || p2) = true then 1 else 0) else 0
         low_line_count1 := if m1 = true then (if (p1 || p2) = true then 0 else 1) else 0
         high_line_count2 := if m2 = true then (if (p1 || p2) = true then 1 else 0) else 0
         low_line_count2 := if m2 = true then (if (p1 || p2) = true then 0 else 1) else 0 } : RowTmp)
    else
      { high_line_count1 := 0, low_line_count1 := 0, high_line_count2 := 0, low_line_count2 := 0 })
    = { high_line_count1 := if (v && m1 && c && sd && lo && hi && (p1 || p2)) = true then 1 else 0
        low_line_count1 := if (v && m1 && c && sd && lo && hi && !(p1 || p2)) = true then 1 else 0
        high_line_count2 := if (v && m2 && c && sd && lo && hi && (p1 || p2)) = true then 1 else 0
        low_line_count2 := if (v && m2 && c && sd && lo && hi && !(p1 || p2)) = true then 1 else 0 } := by
  cases v <;> cases m1 <;> cases m2 <;> cases c <;> cases sd <;> cases lo <;> cases hi <;>
    cases p1 <;> cases p2 <;> rfl

theorem rowContribution_eq (q : QueryParams) (r : JoinedRow) :
    rowContribution q false r =
      { high_line_count1 := if countsHigh q q.shipmode1 r then 1 else 0
        low_line_count1 := if countsLow q q.shipmode1 r then 1 else 0
        high_line_count2 := if countsHigh q q.shipmode2 r then 1 else 0
        low_line_count2 := if countsLow q q.shipmode2 r then 1 else 0 } :=
  rowTmp_bool_cases r.valid (decide (r.shipmode = q.shipmode1)) (decide (r.shipmode = q.shipmode2))
    (decide (r.commitdate < r.receiptdate)) (decide (r.shipdate < r.commitdate))
    (decide (q.low_date ≤ r.receiptdate)) (decide (r.receiptdate < q.high_date))
    (decide (r.orderpriority = 1)) (decide (r.orderpriority = 2))

theorem UnrolledLoopAux_update {N : Nat} {α : Type} (g : Fin N → α) (d0 : Fin N → α) :
    ∀ (k : Nat) (h : k ≤ N) (j : Fin N),
      UnrolledLoopAux N (fun j d => Function.update d j (g j)) k h d0 j
        = if j.val < k then g j else d0 j := by
  intro k
  induction k with
  | zero => intro h j; simp [UnrolledLoopAux]
  | succ k ih =>
    intro h j
    simp only [UnrolledLoopAux]
    by_cases hj : j = ⟨k, h⟩
    · subst hj; simp
    · rw [Function.update_noteq hj, ih]
      have : j.val ≠ k := fun e => hj (Fin.ext e)
      by_cases hlt : j.val < k
      · simp [hlt, Nat.lt_succ_of_lt hlt]
      · have : ¬ j.val < k + 1 := by omega
        simp [hlt, this]

theorem UnrolledLoop_update {N : Nat} {α : Type} (g : Fin N → α) (d0 : Fin N → α) :
    UnrolledLoop N (fun j d => Function.update d j (g j)) d0 = g := by
  funext j
  simp [UnrolledLoop, UnrolledLoopAux_update, j.isLt]

theorem UnrolledLoopAux_store {N : Nat} (g : Fin N → RowTmp) (t0 : TmpArrays N) :
    ∀ (k : Nat) (h : k ≤ N),
      UnrolledLoopAux N (fun i t => t.store i (g i)) k h t0 =
        { high_line_count1_local_tmp :=
            UnrolledLoopAux N (fun i d => Function.update d i (g i).high_line_count1) k h
              t0.high_line_count1_local_tmp
          high_line_count2_local_tmp :=
            UnrolledLoopAux N (fun i d => Function.update d i (g i).high_line_count2) k h
              t0.high_line_count2_local_tmp
          low_line_count1_local_tmp :=
            UnrolledLoopAux N (fun i d => Function.update d i (g i).low_line_count1) k h
              t0.low_line_count1_local_tmp
          low_line_count2_local_tmp :=
            UnrolledLoopAux N (fun i d => Function.update d i (g i).low_line_count2) k h
              t0.low_line_count2_local_tmp } := by
  intro k
  induction k with
  | zero => intro h; rfl
  | succ k ih => intro h; simp only [UnrolledLoopAux, ih]; rfl

theorem UnrolledLoop_store {N : Nat} (g : Fin N → RowTmp) (t0 : TmpArrays N) :
    UnrolledLoop N (fun i t => t.store i (g i)) t0 =
      { high_line_count1_local_tmp := fun i => (g i).high_line_count1
        high_line_count2_local_tmp := fun i => (g i).high_line_count2
        low_line_count1_local_tmp := fun i => (g i).low_line_count1
        low_line_count2_local_tmp := fun i => (g i).low_line_count2 } := by
  have e := fun (φ : RowTmp → DBDecimal) (d0 : Fin N → DBDecimal) =>
    UnrolledLoop_update (fun i => φ (g i)) d0
  simp only [UnrolledLoop] at e
  simp only [UnrolledLoop, UnrolledLoopAux_store, e]

theorem UnrolledLoopAux_foldl {N : Nat} {σ : Type} (f : Fin N → σ → σ) (s : σ) :
    ∀ (k : Nat) (h : k ≤ N),
      UnrolledLoopAux N f k h s =
        (List.ofFn (fun i : Fin k => Fin.castLE h i)).foldl (fun s i => f i s) s := by
  intro k
  induction k with
  | zero => intro h; simp [UnrolledLoopAux]
  | succ k ih =>
    intro h
    rw [List.ofFn_succ']
    simp only [UnrolledLoopAux, List.concat_eq_append, List.foldl_append, List.foldl_cons,
      List.foldl_nil]
    rw [ih (Nat.le_of_succ_le h)]
    rfl

theorem UnrolledLoop_foldl {N : Nat} {σ : Type} (f : Fin N → σ → σ) (s : σ) :
    UnrolledLoop N f s = (List.finRange N).foldl (fun s i => f i s) s := by
  rw [UnrolledLoop, UnrolledLoopAux_foldl, ← List.ofFn_id]
  rfl

theorem reduce_eq_addRows {N : Nat} (q : QueryParams) (data : NTuple N JoinedRow) (acc : Locals) :
    UnrolledLoop N (reduceStep
        (UnrolledLoop N (fun i t => t.store i (rowContribution q false (data i)))
          (TmpArrays.declared N))) acc
      = addRows q (List.ofFn data) acc := by
  rw [UnrolledLoop_store, UnrolledLoop_foldl, List.ofFn_eq_map, addRows, List.foldl_map]
  rfl

theorem loopBody_stall {N : Nat} (q : QueryParams) (rd : PipeRead N) (acc : Locals)
    (h : rd.pipe_valid = false) : loopBody q rd acc = (acc, false) := by
  simp [loopBody, h]

theorem loopBody_done {N : Nat} (q : QueryParams) (rd : PipeRead N) (acc : Locals)
    (h : rd.isDone = true) : loopBody q rd acc = (acc, true) := by
  simp only [PipeRead.isDone] at h
  simp [loopBody, h]

theorem loopBody_data {N : Nat} (q : QueryParams) (rd : PipeRead N) (acc : Locals)
    (hv : rd.pipe_valid = true) (hd : rd.joined_data.done = false) :
    loopBody q rd acc = (addRows q (batchRows rd.joined_data) acc, false) := by
  simp only [loopBody, hv, hd, batchRows]
  simp only [Bool.and_true, Bool.not_false, if_true]
  rw [reduce_eq_addRows]

theorem addRows_append (q : QueryParams) (l1 l2 : List JoinedRow) (acc : Locals) :
    addRows q (l1 ++ l2) acc = addRows q l2 (addRows q l1 acc) := by
  simp [addRows, List.foldl_append]

theorem addRows_fields (q : QueryParams) (rows : List JoinedRow) :
    ∀ acc : Locals, addRows q rows acc =
      { high_line_count1_local :=
          acc.high_line_count1_local + (rows.countP (countsHigh q q.shipmode1) : Nat)
        high_line_count2_local :=
          acc.high_line_count2_local + (rows.countP (countsHigh q q.shipmode2) : Nat)
        low_line_count1_local :=
          acc.low_line_count1_local + (rows.countP (countsLow q q.shipmode1) : Nat)
        low_line_count2_local :=
          acc.low_line_count2_local + (rows.countP (countsLow q q.shipmode2) : Nat) } := by
  induction rows with
  | nil => intro acc; simp [addRows]
  | cons r rows ih =>
    intro acc
    have hstep : addRows q (r :: rows) acc
        = addRows q rows (acc.addTmp (rowContribution q false r)) := rfl
    rw [hstep, ih, rowContribution_eq]
    simp only [Locals.addTmp, List.countP_cons, Nat.cast_add, Nat.cast_ite, Nat.cast_one,
      Nat.cast_zero, Locals.mk.injEq]
    refine ⟨?_, ?_, ?_, ?_⟩ <;> split_ifs <;> ring

theorem rowsBeforeDone_cons {N : Nat} (rd : PipeRead N) (rest : List (PipeRead N)) :
    rowsBeforeDone (rd :: rest) =
      if rd.isDone then []
      else if rd.pipe_valid then batchRows rd.joined_data ++ rowsBeforeDone rest
      else rowsBeforeDone rest := by
  by_cases hd : rd.isDone = true
  · simp [rowsBeforeDone, readsBeforeDone, rowsOfReads, hd]
  · by_cases hv : rd.pipe_valid = true
    · simp [rowsBeforeDone, readsBeforeDone, rowsOfReads, hd, hv]
    · simp [rowsBeforeDone, readsBeforeDone, rowsOfReads, hd, hv]

theorem computeLoop_eq {N : Nat} (q : QueryParams) (s : List (PipeRead N)) :
    ∀ acc : Locals, computeLoop q s acc =
      if hasDone s then some (addRows q (rowsBeforeDone s) acc) else none := by
  induction s with
  | nil => intro acc; simp [computeLoop, hasDone]
  | cons rd rest ih =>
    intro acc
    have hcons : hasDone (rd :: rest) = (rd.isDone || hasDone rest) := by
      simp [hasDone]
    rw [rowsBeforeDone_cons, hcons]
    by_cases hd : rd.isDone = true
    · simp [computeLoop, loopBody_done q rd acc hd, hd, addRows]
    · have hd2 : rd.isDone = false := by simpa using hd
      by_cases hv : rd.pipe_valid = true
      · have hdn : rd.joined_data.done = false := by
          simpa [PipeRead.isDone, hv] using hd2
        simp only [computeLoop, loopBody_data q rd acc hv hdn, hd2, hv, ih, addRows_append]
        simp [addRows_append]
      · have hv2 : rd.pipe_valid = false := by simpa using hv
        simp only [computeLoop, loopBody_stall q rd acc hv2, hd2, hv2, ih]
        simp

theorem Compute_eq {N : Nat} (q : QueryParams) (s : List (PipeRead N)) (h : hasDone s = true) :
    Compute q s = some
      { high_line_count := [((rowsBeforeDone s).countP (countsHigh q q.shipmode1) : Nat),
                            ((rowsBeforeDone s).countP (countsHigh q q.shipmode2) : Nat)]
        low_line_count := [((rowsBeforeDone s).countP (countsLow q q.shipmode1) : Nat),
                           ((rowsBeforeDone s).countP (countsLow q q.shipmode2) : Nat)] } := by
  simp [Compute, computeLoop_eq, h, addRows_fields, writeBack, Locals.init]

/-! ## Properties of `Compute` -/

theorem qualifies_shipmode (q : QueryParams) (m : Int) (r : JoinedRow)
    (h : qualifies q m r = true) : r.shipmode = m := by
  simp only [qualifies, Bool.and_eq_true, decide_eq_true_eq] at h
  exact h.1.1.1.1.2

theorem qualifies_valid (q : QueryParams) (m : Int) (r : JoinedRow)
    (h : qualifies q m r = true) : r.valid = true := by
  simp only [qualifies, Bool.and_eq_true, decide_eq_true_eq] at h
  exact h.1.1.1.1.1

theorem qualifies_iff (q : QueryParams) (m : Int) (r : JoinedRow) :
    qualifies q m r = true ↔
      (r.valid = true ∧ r.shipmode = m ∧ r.commitdate < r.receiptdate ∧
        r.shipdate < r.commitdate ∧ q.low_date ≤ r.receiptdate ∧ r.receiptdate < q.high_date) := by
  simp only [qualifies, Bool.and_eq_true, decide_eq_true_eq]
  tauto

theorem urgentOrHigh_iff (r : JoinedRow) :
    urgentOrHigh r = true ↔ (r.orderpriority = 1 ∨ r.orderpriority = 2) := by
  simp [urgentOrHigh]

/-- C1: for every query parameters and every joined stream that delivers a done
envelope, `Compute` writes `high_line_count[m]` = the number of rows, over all
batches read before the done envelope, that are valid, have shipmode `shipmode_m`,
`commitdate < receiptdate`, `shipdate < commitdate`,
`low_date <= receiptdate < high_date` and `orderpriority` in `{1, 2}`; and
`low_line_count[m]` = the number of such rows with `orderpriority` not in `{1, 2}`. -/
theorem Compute_writes_query_counts {N : Nat} (q : QueryParams) (s : List (PipeRead N))
    (h : hasDone s = true) :
    Compute q s = some
      { high_line_count :=
          [(((rowsBeforeDone s).countP (fun r =>
              r.valid && decide (r.shipmode = q.shipmode1)
                && decide (r.commitdate < r.receiptdate) && decide (r.shipdate < r.commitdate)
                && decide (q.low_date ≤ r.receiptdate) && decide (r.receiptdate < q.high_date)
                && (decide (r.orderpriority = 1) || decide (r.orderpriority = 2))) : Nat) : Int),
           (((rowsBeforeDone s).countP (fun r =>
              r.valid && decide (r.shipmode = q.shipmode2)
                && decide (r.commitdate < r.receiptdate) && decide (r.shipdate < r.commitdate)
                && decide (q.low_date ≤ r.receiptdate) && decide (r.receiptdate < q.high_date)
                && (decide (r.orderpriority = 1) || decide (r.orderpriority = 2))) : Nat) : Int)]
        low_line_count :=
          [(((rowsBeforeDone s).countP (fun r =>
              r.valid && decide (r.shipmode = q.shipmode1)
                && decide (r.commitdate < r.receiptdate) && decide (r.shipdate < r.commitdate)
                && decide (q.low_date ≤ r.receiptdate) && decide (r.receiptdate < q.high_date)
                && !(decide (r.orderpriority = 1) || decide (r.orderpriority = 2))) : Nat) : Int),
           (((rowsBeforeDone s).countP (fun r =>
              r.valid && decide (r.shipmode = q.shipmode2)
                && decide (r.commitdate < r.receiptdate) && decide (r.shipdate < r.commitdate)
                && decide (q.low_date ≤ r.receiptdate) && decide (r.receiptdate < q.high_date)
                && !(decide (r.orderpriority = 1) || decide (r.orderpriority = 2))) : Nat) : Int)] } :=
  Compute_eq q s h

/-- Witness of C1 (end-to-end scenario 1): the single row (shipmode A = 1,
ship = 1, commit = 2, receipt = 5, priority 1) with window `[1, 10)` and
shipmodes `(1, 2)` gives high = `[1, 0]`, low = `[0, 0]`. -/
theorem Compute_writes_query_counts_witness :
    hasDone ([⟨true, ⟨false, true, fun _ => ⟨true, 1, 2, 1, 5, 1⟩⟩⟩,
        ⟨true, ⟨true, false, fun _ => ⟨false, 0, 0, 0, 0, 0⟩⟩⟩] : List (PipeRead 1)) = true ∧
    Compute ⟨1, 10, 1, 2⟩
      ([⟨true, ⟨false, true, fun _ => ⟨true, 1, 2, 1, 5, 1⟩⟩⟩,
        ⟨true, ⟨true, false, fun _ => ⟨false, 0, 0, 0, 0, 0⟩⟩⟩] : List (PipeRead 1))
      = some { high_line_count := [1, 0], low_line_count := [0, 0] } :=
  ⟨by decide, (Compute_writes_query_counts ⟨1, 10, 1, 2⟩ _ (by decide)).trans (by decide)⟩

theorem rowContribution_mode1 (q : QueryParams) (r : JoinedRow) :
    (rowContribution q false r).high_line_count1
        = (if qualifies q q.shipmode1 r && urgentOrHigh r then 1 else 0) ∧
    (rowContribution q false r).low_line_count1
        = (if qualifies q q.shipmode1 r && !urgentOrHigh r then 1 else 0) := by
  rw [rowContribution_eq]; exact ⟨rfl, rfl⟩

theorem rowContribution_mode2 (q : QueryParams) (r : JoinedRow) :
    (rowContribution q false r).high_line_count2
        = (if qualifies q q.shipmode2 r && urgentOrHigh r then 1 else 0) ∧
    (rowContribution q false r).low_line_count2
        = (if qualifies q q.shipmode2 r && !urgentOrHigh r then 1 else 0) := by
  rw [rowContribution_eq]; exact ⟨rfl, rfl⟩

theorem indicator_pair (a u : Bool) :
    ((if (a && u) = true then (1 : Int) else 0) + (if (a && !u) = true then (1 : Int) else 0) ≤ 1) ∧
    ((if (a && u) = true then (1 : Int) else 0) + (if (a && !u) = true then (1 : Int) else 0) = 1
      ↔ a = true) ∧
    ((if (a && u) = true then (1 : Int) else 0) = 1 ↔ (a = true ∧ u = true)) ∧
    ((if (a && !u) = true then (1 : Int) else 0) = 1 ↔ (a = true ∧ ¬ u = true)) := by
  cases a <;> cases u <;> simp

/-- C2 (counterexample): a valid row of shipmode 1 that meets the four structural
predicates but has priority 3 contributes `high + low = 1` for mode 1 although the
fifth predicate fails; and an invalid row meeting all five predicates contributes 0. -/
theorem contribution_sum_one_without_priority :
    ((rowContribution ⟨1, 10, 1, 2⟩ false ⟨true, 1, 2, 1, 5, 3⟩).high_line_count1
      + (rowContribution ⟨1, 10, 1, 2⟩ false ⟨true, 1, 2, 1, 5, 3⟩).low_line_count1 = 1
      ∧ ¬ ((3 : Int) = 1 ∨ (3 : Int) = 2)) ∧
    ((rowContribution ⟨1, 10, 1, 2⟩ false ⟨false, 1, 2, 1, 5, 1⟩).high_line_count1
      + (rowContribution ⟨1, 10, 1, 2⟩ false ⟨false, 1, 2, 1, 5, 1⟩).low_line_count1 = 0) := by
  decide

/-- C2 (amended): for every joined row and each of the two shipmodes, the per-row
contributions satisfy `high + low <= 1`, and the sum is exactly 1 iff the row is
valid and the four structural predicates hold for that shipmode; the priority
predicate only selects which of the two is 1 (high iff priority in `{1, 2}`). -/
theorem contribution_sum_le_one (q : QueryParams) (r : JoinedRow) :
    let c := rowContribution q false r
    let structural := fun (m : Int) =>
      r.valid = true ∧ r.shipmode = m ∧ r.commitdate < r.receiptdate ∧
        r.shipdate < r.commitdate ∧ q.low_date ≤ r.receiptdate ∧ r.receiptdate < q.high_date
    let urgent := r.orderpriority = 1 ∨ r.orderpriority = 2
    (c.high_line_count1 + c.low_line_count1 ≤ 1 ∧
      (c.high_line_count1 + c.low_line_count1 = 1 ↔ structural q.shipmode1) ∧
      (c.high_line_count1 = 1 ↔ structural q.shipmode1 ∧ urgent) ∧
      (c.low_line_count1 = 1 ↔ structural q.shipmode1 ∧ ¬ urgent)) ∧
    (c.high_line_count2 + c.low_line_count2 ≤ 1 ∧
      (c.high_line_count2 + c.low_line_count2 = 1 ↔ structural q.shipmode2) ∧
      (c.high_line_count2 = 1 ↔ structural q.shipmode2 ∧ urgent) ∧
      (c.low_line_count2 = 1 ↔ structural q.shipmode2 ∧ ¬ urgent)) := by
  intro c structural urgent
  have h1 := rowContribution_mode1 q r
  have h2 := rowContribution_mode2 q r
  have e1 := indicator_pair (qualifies q q.shipmode1 r) (urgentOrHigh r)
  have e2 := indicator_pair (qualifies q q.shipmode2 r) (urgentOrHigh r)
  rw [qualifies_iff, urgentOrHigh_iff] at e1 e2
  simp only [c, structural, urgent]
  rw [h1.1, h1.2, h2.1, h2.2]
  exact ⟨e1, e2⟩

/-- C3: with `shipmode1 ≠ shipmode2`, the four per-row contributions are each 0 or
1 and sum to at most 1; a row contributes only to the counters of the mode equal
to its own shipmode, so it adds 1 to at most one of the four counters. -/
theorem contribution_at_most_one_mode (q : QueryParams) (r : JoinedRow)
    (hne : q.shipmode1 ≠ q.shipmode2) :
    let c := rowContribution q false r
    (c.high_line_count1 = 0 ∨ c.high_line_count1 = 1) ∧
    (c.low_line_count1 = 0 ∨ c.low_line_count1 = 1) ∧
    (c.high_line_count2 = 0 ∨ c.high_line_count2 = 1) ∧
    (c.low_line_count2 = 0 ∨ c.low_line_count2 = 1) ∧
    c.high_line_count1 + c.low_line_count1 + c.high_line_count2 + c.low_line_count2 ≤ 1 ∧
    (c.high_line_count1 + c.low_line_count1 ≠ 0 → r.shipmode = q.shipmode1) ∧
    (c.high_line_count2 + c.low_line_count2 ≠ 0 → r.shipmode = q.shipmode2) := by
  intro c
  have h1 := rowContribution_mode1 q r
  have h2 := rowContribution_mode2 q r
  have m1 := qualifies_shipmode q q.shipmode1 r
  have m2 := qualifies_shipmode q q.shipmode2 r
  simp only [c]
  rw [h1.1, h1.2, h2.1, h2.2]
  cases hq1 : qualifies q q.shipmode1 r <;> cases hq2 : qualifies q q.shipmode2 r <;>
    cases hu : urgentOrHigh r <;> simp_all

/-- Witness of C3: parameters with distinct shipmodes 1 and 2 and a qualifying row
of shipmode 1. -/
theorem contribution_at_most_one_mode_witness :
    (1 : Int) ≠ 2 ∧
    (rowContribution ⟨1, 10, 1, 2⟩ false ⟨true, 1, 2, 1, 5, 1⟩).high_line_count1
      + (rowContribution ⟨1, 10, 1, 2⟩ false ⟨true, 1, 2, 1, 5, 1⟩).low_line_count1
      + (rowContribution ⟨1, 10, 1, 2⟩ false ⟨true, 1, 2, 1, 5, 1⟩).high_line_count2
      + (rowContribution ⟨1, 10, 1, 2⟩ false ⟨true, 1, 2, 1, 5, 1⟩).low_line_count2 ≤ 1 :=
  ⟨by decide,
    (contribution_at_most_one_mode ⟨1, 10, 1, 2⟩ ⟨true, 1, 2, 1, 5, 1⟩ (by decide)).2.2.2.2.1⟩

theorem countP_valid_filter (p : JoinedRow → Bool) (hp : ∀ r, p r = true → r.valid = true)
    (rows : List JoinedRow) :
    (rows.filter (fun r => r.valid)).countP p = rows.countP p := by
  rw [List.countP_filter]
  apply List.countP_congr
  intro r _
  constructor
  · intro h; simp only [Bool.and_eq_true] at h; exact h.1
  · intro h; simp [h, hp r h]

theorem countsHigh_valid (q : QueryParams) (m : Int) (r : JoinedRow)
    (h : countsHigh q m r = true) : r.valid = true := by
  simp only [countsHigh, Bool.and_eq_true] at h
  exact qualifies_valid q m r h.1

theorem countsLow_valid (q : QueryParams) (m : Int) (r : JoinedRow)
    (h : countsLow q m r = true) : r.valid = true := by
  simp only [countsLow, Bool.and_eq_true] at h
  exact qualifies_valid q m r h.1

theorem Compute_eq_valid {N : Nat} (q : QueryParams) (s : List (PipeRead N))
    (h : hasDone s = true) :
    Compute q s = some
      { high_line_count := [((validRowsBeforeDone s).countP (countsHigh q q.shipmode1) : Nat),
                            ((validRowsBeforeDone s).countP (countsHigh q q.shipmode2) : Nat)]
        low_line_count := [((validRowsBeforeDone s).countP (countsLow q q.shipmode1) : Nat),
                           ((validRowsBeforeDone s).countP (countsLow q q.shipmode2) : Nat)] } := by
  rw [Compute_eq q s h]
  simp only [validRowsBeforeDone]
  rw [countP_valid_filter _ (countsHigh_valid q q.shipmode1),
    countP_valid_filter _ (countsHigh_valid q q.shipmode2),
    countP_valid_filter _ (countsLow_valid q q.shipmode1),
    countP_valid_filter _ (countsLow_valid q q.shipmode2)]

/-- C6: the counts written by `Compute` depend only on the multiset of valid rows
read before the done envelope: two joined streams (of any batch widths) that both
deliver a done envelope and whose valid rows before it are permutations of each
other make `Compute` write the same `high_line_count` and `low_line_count`. -/
theorem Compute_depends_on_valid_rows_multiset {N1 N2 : Nat} (q : QueryParams)
    (s1 : List (PipeRead N1)) (s2 : List (PipeRead N2))
    (h1 : hasDone s1 = true) (h2 : hasDone s2 = true)
    (hperm : (validRowsBeforeDone s1).Perm (validRowsBeforeDone s2)) :
    (∃ out, Compute q s1 = some out) ∧ Compute q s1 = Compute q s2 := by
  refine ⟨⟨_, Compute_eq_valid q s1 h1⟩, ?_⟩
  rw [Compute_eq_valid q s1 h1, Compute_eq_valid q s2 h2]
  rw [hperm.countP_eq, hperm.countP_eq, hperm.countP_eq, hperm.countP_eq]

/-- Witness of C6: two rows in one batch of width 2 with a padding-only batch,
against the same rows in the other order in batches of width 1 with a padding
batch in between. -/
theorem Compute_depends_on_valid_rows_multiset_witness :
    Compute ⟨1, 10, 1, 2⟩
      ([⟨true, ⟨false, true, ![⟨true, 1, 2, 1, 5, 1⟩, ⟨true, 2, 2, 1, 5, 3⟩]⟩⟩,
        ⟨true, ⟨false, true, ![⟨false, 0, 0, 0, 0, 0⟩, ⟨false, 0, 0, 0, 0, 0⟩]⟩⟩,
        ⟨true, ⟨true, false, ![⟨false, 0, 0, 0, 0, 0⟩, ⟨false, 0, 0, 0, 0, 0⟩]⟩⟩] :
          List (PipeRead 2))
    = Compute ⟨1, 10, 1, 2⟩
      ([⟨true, ⟨false, true, ![⟨true, 2, 2, 1, 5, 3⟩]⟩⟩,
        ⟨true, ⟨false, true, ![⟨false, 0, 0, 0, 0, 0⟩]⟩⟩,
        ⟨true, ⟨false, true, ![⟨true, 1, 2, 1, 5, 1⟩]⟩⟩,
        ⟨true, ⟨true, false, ![⟨false, 0, 0, 0, 0, 0⟩]⟩⟩] : List (PipeRead 1)) :=
  (Compute_depends_on_valid_rows_multiset ⟨1, 10, 1, 2⟩ _ _ (by decide) (by decide)
    (by decide)).2

theorem computeLoop_append_done {N : Nat} (q : QueryParams) (pre : List (PipeRead N))
    (d : PipeRead N) (post : List (PipeRead N))
    (hpre : ∀ rd ∈ pre, rd.isDone = false) (hd : d.isDone = true) :
    ∀ acc : Locals, computeLoop q (pre ++ d :: post) acc
      = some (pre.foldl (fun a rd => (loopBody q rd a).1) acc) := by
  induction pre with
  | nil => intro acc; simp [computeLoop, loopBody_done q d acc hd]
  | cons rd rest ih =>
    intro acc
    have hrd : rd.isDone = false := hpre rd (List.mem_cons_self _ _)
    have hrest : ∀ x ∈ rest, x.isDone = false := fun x hx => hpre x (List.mem_cons_of_mem _ hx)
    have hflag : (loopBody q rd acc).2 = false := by
      by_cases hv : rd.pipe_valid = true
      · have hdn : rd.joined_data.done = false := by
          simpa [PipeRead.isDone, hv] using hrd
        rw [loopBody_data q rd acc hv hdn]
      · have hv2 : rd.pipe_valid = false := by simpa using hv
        rw [loopBody_stall q rd acc hv2]
    simp only [List.cons_append, computeLoop, hflag, Bool.not_false, if_true, List.foldl_cons]
    exact ih hrest _

/-- C7: `Compute` stops at the first done envelope it reads: it writes the
counters accumulated over the reads strictly before that envelope, whatever
follows it in the channel; when the first envelope is done all four results
are zero. -/
theorem Compute_stops_at_first_done {N : Nat} (q : QueryParams) (pre : List (PipeRead N))
    (d : PipeRead N) (post : List (PipeRead N))
    (hpre : ∀ rd ∈ pre, rd.isDone = false) (hd : d.isDone = true) :
    Compute q (pre ++ d :: post)
      = some (writeBack (pre.foldl (fun a rd => (loopBody q rd a).1) Locals.init)) ∧
    Compute q (pre ++ d :: post) = Compute q (pre ++ [d]) ∧
    Compute q (d :: post) = some { high_line_count := [0, 0], low_line_count := [0, 0] } := by
  refine ⟨?_, ?_, ?_⟩
  · simp [Compute, computeLoop_append_done q pre d post hpre hd]
  · simp [Compute, computeLoop_append_done q pre d post hpre hd,
      computeLoop_append_done q pre d [] hpre hd]
  · have h := computeLoop_append_done q [] d post (by simp) hd Locals.init
    simp only [List.nil_append, List.foldl_nil] at h
    rw [Compute, h]; rfl

/-- Witness of C7: one data batch, the done envelope, and a further qualifying
batch after it that is never read. -/
theorem Compute_stops_at_first_done_witness :
    Compute ⟨1, 10, 1, 2⟩
      (([⟨true, ⟨false, true, ![⟨true, 1, 2, 1, 5, 1⟩]⟩⟩] : List (PipeRead 1))
        ++ ⟨true, ⟨true, false, ![⟨false, 0, 0, 0, 0, 0⟩]⟩⟩
          :: [⟨true, ⟨false, true, ![⟨true, 1, 2, 1, 5, 1⟩]⟩⟩])
      = some { high_line_count := [1, 0], low_line_count := [0, 0] } :=
  (Compute_stops_at_first_done ⟨1, 10, 1, 2⟩
      ([⟨true, ⟨false, true, ![⟨true, 1, 2, 1, 5, 1⟩]⟩⟩] : List (PipeRead 1))
      ⟨true, ⟨true, false, ![⟨false, 0, 0, 0, 0, 0⟩]⟩⟩
      [⟨true, ⟨false, true, ![⟨true, 1, 2, 1, 5, 1⟩]⟩⟩]
      (by decide) (by decide)).1.trans (by decide)

theorem computeLoop_filter_pipe_valid {N : Nat} (q : QueryParams) (s : List (PipeRead N)) :
    ∀ acc : Locals,
      computeLoop q (s.filter (fun rd => rd.pipe_valid)) acc = computeLoop q s acc := by
  induction s with
  | nil => intro acc; rfl
  | cons rd rest ih =>
    intro acc
    by_cases hv : rd.pipe_valid = true
    · simp only [List.filter_cons, hv, if_true, computeLoop, ih]
    · have hv2 : rd.pipe_valid = false := by simpa using hv
      simp [List.filter_cons, hv2, computeLoop, loopBody_stall q rd acc hv2, ih]

/-- C8 (counterexample): an envelope whose `valid` field is false, read before the
done envelope, is accumulated like any other batch: with it `Compute` writes
high = `[1, 0]`, without it high = `[0, 0]`. -/
theorem Compute_counts_envelope_marked_invalid :
    (⟨false, false, ![⟨true, 1, 2, 1, 5, 1⟩]⟩ : JoinedRowPipeData 1).valid = false ∧
    Compute ⟨1, 10, 1, 2⟩
      ([⟨true, ⟨false, false, ![⟨true, 1, 2, 1, 5, 1⟩]⟩⟩,
        ⟨true, ⟨true, false, ![⟨false, 0, 0, 0, 0, 0⟩]⟩⟩] : List (PipeRead 1))
      = some { high_line_count := [1, 0], low_line_count := [0, 0] } ∧
    Compute ⟨1, 10, 1, 2⟩
      ([⟨true, ⟨true, false, ![⟨false, 0, 0, 0, 0, 0⟩]⟩⟩] : List (PipeRead 1))
      = some { high_line_count := [0, 0], low_line_count := [0, 0] } := by
  decide

/-- C8 (amended): a read for which the pipe reports `pipe_valid = false` is
treated as "no data this cycle": it leaves all four counters unchanged whatever
the returned value holds (payload rows and flags) and does not end the loop, so
removing every such read from the stream does not change what `Compute` does.
The envelope's own `valid` field is not consulted. -/
theorem Compute_ignores_failed_reads {N : Nat} (q : QueryParams) (s : List (PipeRead N))
    (rd : PipeRead N) (acc : Locals) (h : rd.pipe_valid = false) :
    loopBody q rd acc = (acc, false) ∧
    Compute q (s.filter (fun x => x.pipe_valid)) = Compute q s ∧
    (∀ (x : PipeRead N) (v : Bool) (a : Locals),
      loopBody q ⟨x.pipe_valid, ⟨x.joined_data.done, v, x.joined_data.data⟩⟩ a
        = loopBody q x a) :=
  ⟨loopBody_stall q rd acc h, by simp [Compute, computeLoop_filter_pipe_valid],
    fun _ _ _ => rfl⟩

/-- Witness of C8 (amended): a failed read carrying a done flag and a qualifying
row in front of a real batch and the done envelope. -/
theorem Compute_ignores_failed_reads_witness :
    Compute ⟨1, 10, 1, 2⟩
      (([⟨false, ⟨true, true, ![⟨true, 1, 2, 1, 5, 1⟩]⟩⟩,
        ⟨true, ⟨false, true, ![⟨true, 1, 2, 1, 5, 1⟩]⟩⟩,
        ⟨true, ⟨true, false, ![⟨false, 0, 0, 0, 0, 0⟩]⟩⟩] : List (PipeRead 1)).filter
          (fun x => x.pipe_valid))
    = Compute ⟨1, 10, 1, 2⟩
      ([⟨false, ⟨true, true, ![⟨true, 1, 2, 1, 5, 1⟩]⟩⟩,
        ⟨true, ⟨false, true, ![⟨true, 1, 2, 1, 5, 1⟩]⟩⟩,
        ⟨true, ⟨true, false, ![⟨false, 0, 0, 0, 0, 0⟩]⟩⟩] : List (PipeRead 1)) :=
  (Compute_ignores_failed_reads ⟨1, 10, 1, 2⟩ _
    (⟨false, ⟨true, true, ![⟨true, 1, 2, 1, 5, 1⟩]⟩⟩ : PipeRead 1) Locals.init rfl).2.1

theorem computeTrace_get {N : Nat} (q : QueryParams) (s : List (PipeRead N)) :
    ∀ (acc : Locals) (k : Nat) (c : Locals),
      (acc :: computeTrace q s acc)[k]? = some c →
        c = addRows q (rowsBeforeDone (s.take k)) acc := by
  induction s with
  | nil =>
    intro acc k c h
    cases k with
    | zero => simp at h; simp [← h, rowsBeforeDone, readsBeforeDone, rowsOfReads, addRows]
    | succ k => simp [computeTrace] at h
  | cons rd rest ih =>
    intro acc k c h
    cases k with
    | zero => simp at h; simp [← h, rowsBeforeDone, readsBeforeDone, rowsOfReads, addRows]
    | succ k =>
      simp only [List.getElem?_cons_succ, computeTrace] at h
      rw [List.take_succ_cons, rowsBeforeDone_cons]
      by_cases hd : rd.isDone = true
      · rw [loopBody_done q rd acc hd] at h
        simp only [Bool.not_true, Bool.false_eq_true, if_false] at h
        cases k with
        | zero => simp at h; simp [hd, ← h, addRows]
        | succ k => simp at h
      · have hd2 : rd.isDone = false := by simpa using hd
        by_cases hv : rd.pipe_valid = true
        · have hdn : rd.joined_data.done = false := by
            simpa [PipeRead.isDone, hv] using hd2
          rw [loopBody_data q rd acc hv hdn] at h
          simp only [Bool.not_false, if_true] at h
          rw [ih _ k c h]
          simp [hd2, hv, addRows_append]
        · have hv2 : rd.pipe_valid = false := by simpa using hv
          rw [loopBody_stall q rd acc hv2] at h
          simp only [Bool.not_false, if_true] at h
          rw [ih _ k c h]
          simp [hd2, hv2]

theorem count_high_low_le_valid (q : QueryParams) (m : Int) (rows : List JoinedRow) :
    rows.countP (countsHigh q m) + rows.countP (countsLow q m)
      ≤ (rows.filter (fun r => r.valid)).length := by
  induction rows with
  | nil => simp
  | cons r rows ih =>
    simp only [List.countP_cons, List.filter_cons]
    have hv := qualifies_valid q m r
    cases hq : qualifies q m r <;> cases hu : urgentOrHigh r <;> cases hval : r.valid <;>
      simp_all [countsHigh, countsLow] <;> omega

theorem addRows_init_bounds (q : QueryParams) (rows : List JoinedRow) :
    let c := addRows q rows Locals.init
    let n : Int := ((rows.filter (fun r => r.valid)).length : Nat)
    (0 ≤ c.high_line_count1_local ∧ c.high_line_count1_local ≤ n) ∧
    (0 ≤ c.high_line_count2_local ∧ c.high_line_count2_local ≤ n) ∧
    (0 ≤ c.low_line_count1_local ∧ c.low_line_count1_local ≤ n) ∧
    (0 ≤ c.low_line_count2_local ∧ c.low_line_count2_local ≤ n) ∧
    c.high_line_count1_local + c.low_line_count1_local ≤ n ∧
    c.high_line_count2_local + c.low_line_count2_local ≤ n := by
  intro c n
  have b1 := count_high_low_le_valid q q.shipmode1 rows
  have b2 := count_high_low_le_valid q q.shipmode2 rows
  simp only [c, n, addRows_fields, Locals.init, zero_add]
  have b1z : ((rows.countP (countsHigh q q.shipmode1) : Nat) : Int)
      + ((rows.countP (countsLow q q.shipmode1) : Nat) : Int)
      ≤ (((rows.filter (fun r => r.valid)).length : Nat) : Int) := by exact_mod_cast b1
  have b2z : ((rows.countP (countsHigh q q.shipmode2) : Nat) : Int)
      + ((rows.countP (countsLow q q.shipmode2) : Nat) : Int)
      ≤ (((rows.filter (fun r => r.valid)).length : Nat) : Int) := by exact_mod_cast b2
  have p1 : (0 : Int) ≤ ((rows.countP (countsHigh q q.shipmode1) : Nat) : Int) :=
    Int.ofNat_nonneg _
  have p2 : (0 : Int) ≤ ((rows.countP (countsLow q q.shipmode1) : Nat) : Int) :=
    Int.ofNat_nonneg _
  have p3 : (0 : Int) ≤ ((rows.countP (countsHigh q q.shipmode2) : Nat) : Int) :=
    Int.ofNat_nonneg _
  have p4 : (0 : Int) ≤ ((rows.countP (countsLow q q.shipmode2) : Nat) : Int) :=
    Int.ofNat_nonneg _
  refine ⟨⟨p1, ?_⟩, ⟨p3, ?_⟩, ⟨p2, ?_⟩, ⟨p4, ?_⟩, b1z, b2z⟩ <;> linarith

theorem computeLoop_last_of_trace {N : Nat} (q : QueryParams) (s : List (PipeRead N)) :
    ∀ (acc a : Locals), computeLoop q s acc = some a →
      (computeTrace q s acc).getLast? = some a := by
  induction s with
  | nil => intro acc a h; simp [computeLoop] at h
  | cons rd rest ih =>
    intro acc a h
    simp only [computeLoop] at h
    simp only [computeTrace]
    by_cases hd : (loopBody q rd acc).2 = true
    · simp only [hd, Bool.not_true, Bool.false_eq_true, if_false] at h ⊢
      simpa using h
    · have hd2 : (loopBody q rd acc).2 = false := by simpa using hd
      simp only [hd2, Bool.not_false, if_true] at h ⊢
      have hl := ih _ a h
      cases htr : computeTrace q rest (loopBody q rd acc).1 with
      | nil => rw [htr] at hl; simp at hl
      | cons x xs =>
        rw [htr] at hl
        rw [List.getLast?_cons_cons]
        exact hl

/-- C9: the aggregation counters are bounded by the row count: the accumulators
start from zero, and after every iteration of the `Compute` loop (`k` iterations,
which consumed the first `k` reads) each of the four counters is non-negative and
at most the number of valid joined rows read so far, as is `high + low` for each
mode; the values of the final write are those of the last iteration and obey the
same bounds. -/
theorem Compute_counters_bounded {N : Nat} (q : QueryParams) (s : List (PipeRead N))
    (k : Nat) (c : Locals)
    (hk : (Locals.init :: computeTrace q s Locals.init)[k]? = some c) :
    Locals.init = ⟨0, 0, 0, 0⟩ ∧
    ((0 ≤ c.high_line_count1_local ∧
        c.high_line_count1_local ≤ ((validRowsBeforeDone (s.take k)).length : Nat)) ∧
      (0 ≤ c.high_line_count2_local ∧
        c.high_line_count2_local ≤ ((validRowsBeforeDone (s.take k)).length : Nat)) ∧
      (0 ≤ c.low_line_count1_local ∧
        c.low_line_count1_local ≤ ((validRowsBeforeDone (s.take k)).length : Nat)) ∧
      (0 ≤ c.low_line_count2_local ∧
        c.low_line_count2_local ≤ ((validRowsBeforeDone (s.take k)).length : Nat)) ∧
      c.high_line_count1_local + c.low_line_count1_local
        ≤ ((validRowsBeforeDone (s.take k)).length : Nat) ∧
      c.high_line_count2_local + c.low_line_count2_local
        ≤ ((validRowsBeforeDone (s.take k)).length : Nat)) ∧
    (∀ out, Compute q s = some out →
      ∃ a : Locals,
        (computeTrace q s Locals.init).getLast? = some a ∧
        out = { high_line_count := [a.high_line_count1_local, a.high_line_count2_local]
                low_line_count := [a.low_line_count1_local, a.low_line_count2_local] } ∧
        (0 ≤ a.high_line_count1_local ∧
          a.high_line_count1_local ≤ ((validRowsBeforeDone s).length : Nat)) ∧
        (0 ≤ a.high_line_count2_local ∧
          a.high_line_count2_local ≤ ((validRowsBeforeDone s).length : Nat)) ∧
        (0 ≤ a.low_line_count1_local ∧
          a.low_line_count1_local ≤ ((validRowsBeforeDone s).length : Nat)) ∧
        (0 ≤ a.low_line_count2_local ∧
          a.low_line_count2_local ≤ ((validRowsBeforeDone s).length : Nat)) ∧
        a.high_line_count1_local + a.low_line_count1_local
          ≤ ((validRowsBeforeDone s).length : Nat) ∧
        a.high_line_count2_local + a.low_line_count2_local
          ≤ ((validRowsBeforeDone s).length : Nat)) := by
  refine ⟨rfl, ?_, ?_⟩
  · rw [computeTrace_get q s Locals.init k c hk]
    exact addRows_init_bounds q (rowsBeforeDone (s.take k))
  · intro out hout
    by_cases hd : hasDone s = true
    · have hloop : computeLoop q s Locals.init
          = some (addRows q (rowsBeforeDone s) Locals.init) := by
        rw [computeLoop_eq, if_pos hd]
      rw [Compute, hloop] at hout
      have hout2 := Option.some.inj hout
      exact ⟨_, computeLoop_last_of_trace q s _ _ hloop, hout2.symm,
        addRows_init_bounds q (rowsBeforeDone s)⟩
    · simp [Compute, computeLoop_eq, hd] at hout

/-- Witness of C9: after the first iteration on a stream of one qualifying row
and the done envelope, the accumulators are `(1, 0, 0, 0)` and one valid row has
been read. -/
theorem Compute_counters_bounded_witness :
    (Locals.init :: computeTrace ⟨1, 10, 1, 2⟩
        ([⟨true, ⟨false, true, ![⟨true, 1, 2, 1, 5, 1⟩]⟩⟩,
          ⟨true, ⟨true, false, ![⟨false, 0, 0, 0, 0, 0⟩]⟩⟩] : List (PipeRead 1))
        Locals.init)[1]? = some ⟨1, 0, 0, 0⟩ ∧
    (1 : Int) ≤ ((validRowsBeforeDone
        (([⟨true, ⟨false, true, ![⟨true, 1, 2, 1, 5, 1⟩]⟩⟩,
          ⟨true, ⟨true, false, ![⟨false, 0, 0, 0, 0, 0⟩]⟩⟩] : List (PipeRead 1)).take 1)).length
          : Nat) :=
  ⟨by decide,
    (Compute_counters_bounded ⟨1, 10, 1, 2⟩
      ([⟨true, ⟨false, true, ![⟨true, 1, 2, 1, 5, 1⟩]⟩⟩,
        ⟨true, ⟨true, false, ![⟨false, 0, 0, 0, 0, 0⟩]⟩⟩] : List (PipeRead 1))
      1 ⟨1, 0, 0, 0⟩ (by decide)).2.1.1.2⟩

/-- C10: when the caller passes `shipmode1 = shipmode2`, `Compute` counts every
qualifying row under both modes: for every joined stream that delivers a done
envelope `high_line_count[0] = high_line_count[1]` and
`low_line_count[0] = low_line_count[1]`; and for some input a single row adds 2
to the total of the four counters. -/
theorem Compute_equal_shipmodes_counts_twice {N : Nat} (q : QueryParams)
    (s : List (PipeRead N)) (heq : q.shipmode1 = q.shipmode2) (hd : hasDone s = true) :
    (∃ h l : DBDecimal,
      Compute q s = some { high_line_count := [h, h], low_line_count := [l, l] }) ∧
    (∃ (q0 : QueryParams) (s0 : List (PipeRead 1)) (r : JoinedRow),
      q0.shipmode1 = q0.shipmode2 ∧ rowsBeforeDone s0 = [r] ∧
      Compute q0 s0 = some { high_line_count := [1, 1], low_line_count := [0, 0] }) := by
  constructor
  · refine ⟨((rowsBeforeDone s).countP (countsHigh q q.shipmode2) : Nat),
      ((rowsBeforeDone s).countP (countsLow q q.shipmode2) : Nat), ?_⟩
    rw [Compute_eq q s hd, heq]
  · exact ⟨⟨1, 10, 1, 1⟩,
      [⟨true, ⟨false, true, ![⟨true, 1, 2, 1, 5, 1⟩]⟩⟩,
        ⟨true, ⟨true, false, ![⟨false, 0, 0, 0, 0, 0⟩]⟩⟩],
      ⟨true, 1, 2, 1, 5, 1⟩, by decide, by decide, by decide⟩

/-- Witness of C10: both shipmodes equal to 1, one qualifying low-priority row. -/
theorem Compute_equal_shipmodes_counts_twice_witness :
    Compute ⟨1, 10, 1, 1⟩
      ([⟨true, ⟨false, true, ![⟨true, 1, 2, 1, 5, 3⟩]⟩⟩,
        ⟨true, ⟨true, false, ![⟨false, 0, 0, 0, 0, 0⟩]⟩⟩] : List (PipeRead 1))
      = some { high_line_count := [0, 0], low_line_count := [1, 1] } :=
  (Compute_equal_shipmodes_counts_twice ⟨1, 10, 1, 1⟩
      ([⟨true, ⟨false, true, ![⟨true, 1, 2, 1, 5, 3⟩]⟩⟩,
        ⟨true, ⟨true, false, ![⟨false, 0, 0, 0, 0, 0⟩]⟩⟩] : List (PipeRead 1))
      rfl (by decide)).1.elim (fun _ _ => by decide)

/-! ## Lemmas on the producer loops -/

theorem sizeAdd_eq (a b : Nat) (h : a + b < SIZE_T_RANGE) : sizeAdd a b = a + b :=
  Nat.mod_eq_of_lt h

theorem ceilDiv_of_le (rows i N : Nat) (hN : 1 ≤ N) (h : rows ≤ i) :
    ceilDiv (rows - i) N = 0 := by
  have : rows - i = 0 := by omega
  rw [ceilDiv, this]
  exact Nat.div_eq_of_lt (by omega)

theorem ceilDiv_step (rows i N : Nat) (hN : 1 ≤ N) (h : i < rows) :
    ceilDiv (rows - i) N = ceilDiv (rows - (i + N)) N + 1 := by
  unfold ceilDiv
  by_cases hc : N ≤ rows - i
  · have e : rows - i + N - 1 = (rows - (i + N) + N - 1) + N := by omega
    rw [e, Nat.add_div_right _ (by omega)]
  · have e0 : rows - (i + N) = 0 := by omega
    rw [e0]
    have z : (0 + N - 1) / N = 0 := Nat.div_eq_of_lt (by omega)
    rw [z]
    exact Nat.div_eq_of_lt_le (by omega) (by omega)

theorem ceilDiv_le (rows N : Nat) (hN : 1 ≤ N) : ceilDiv rows N ≤ rows := by
  unfold ceilDiv
  by_cases h0 : rows = 0
  · subst h0
    rw [Nat.div_eq_of_lt (by omega)]
  · have hlt : (rows + N - 1) / N < rows + 1 := by
      rw [Nat.div_lt_iff_lt_mul (by omega)]
      have : rows * 1 ≤ rows * N := Nat.mul_le_mul_left rows hN
      have e : (rows + 1) * N = rows * N + N := Nat.succ_mul rows N
      omega
    omega

theorem mul_lt_of_lt_ceilDiv (rows N k : Nat) (hN : 1 ≤ N) (h : k < ceilDiv rows N) :
    k * N < rows := by
  unfold ceilDiv at h
  have h2 : (k + 1) * N ≤ rows + N - 1 := (Nat.le_div_iff_mul_le (by omega)).1 h
  have e : (k + 1) * N = k * N + N := Nat.succ_mul k N
  omega

theorem LineItemProducerLoop_eq (maxKey : DBIdentifier) (N : Nat) (t : LineItemTable)
    (hN : 1 ≤ N) (hsz : t.rows + N ≤ SIZE_T_RANGE) :
    ∀ (fuel i : Nat), ceilDiv (t.rows - i) N < fuel →
      LineItemProducerLoop maxKey N t fuel i =
        some ((List.range (ceilDiv (t.rows - i) N)).map
          (fun m => (⟨false, true, fun j => lineItemSlot maxKey t (i + m * N) j⟩ :
            LineItemRowPipeData N))) := by
  intro fuel
  induction fuel with
  | zero => intro i h; omega
  | succ fuel ih =>
    intro i h
    by_cases hi : i < t.rows
    · have hstep := ceilDiv_step t.rows i N hN hi
      have hadd : sizeAdd i N = i + N := sizeAdd_eq i N (by omega)
      have hdata : UnrolledLoop N
          (fun j d => Function.update d j (lineItemSlot maxKey t i j))
          (fun _ => LineItemRow.declared) = (fun j : Fin N => lineItemSlot maxKey t i j.val) :=
        UnrolledLoop_update (fun j : Fin N => lineItemSlot maxKey t i j.val) _
      simp only [LineItemProducerLoop, hi, if_true, hadd, hdata]
      rw [ih (i + N) (by omega), hstep, List.range_succ_eq_map]
      simp only [Option.map_some', List.map_cons, List.map_map, Nat.zero_mul, Nat.add_zero]
      congr 2
      apply List.map_congr_left
      intro m _
      simp only [Function.comp, Nat.succ_eq_add_one]
      have : i + N + m * N = i + (m + 1) * N := by rw [Nat.succ_mul]; omega
      rw [this]
    · have hz := ceilDiv_of_le t.rows i N hN (by omega)
      simp [LineItemProducerLoop, hi, hz]

theorem OrdersProducerLoop_eq (maxKey : DBIdentifier) (N : Nat) (t : OrdersTable)
    (hN : 1 ≤ N) (hsz : t.rows + N ≤ SIZE_T_RANGE) :
    ∀ (fuel i : Nat), ceilDiv (t.rows - i) N < fuel →
      OrdersProducerLoop maxKey N t fuel i =
        some ((List.range (ceilDiv (t.rows - i) N)).map
          (fun m => (⟨false, true, fun j => ordersSlot maxKey t (i + m * N) j⟩ :
            OrdersRowPipeData N))) := by
  intro fuel
  induction fuel with
  | zero => intro i h; omega
  | succ fuel ih =>
    intro i h
    by_cases hi : i < t.rows
    · have hstep := ceilDiv_step t.rows i N hN hi
      have hadd : sizeAdd i N = i + N := sizeAdd_eq i N (by omega)
      have hdata : UnrolledLoop N
          (fun j d => Function.update d j (ordersSlot maxKey t i j))
          (fun _ => OrdersRow.declared) = (fun j : Fin N => ordersSlot maxKey t i j.val) :=
        UnrolledLoop_update (fun j : Fin N => ordersSlot maxKey t i j.val) _
      simp only [OrdersProducerLoop, hi, if_true, hadd, hdata]
      rw [ih (i + N) (by omega), hstep, List.range_succ_eq_map]
      simp only [Option.map_some', List.map_cons, List.map_map, Nat.zero_mul, Nat.add_zero]
      congr 2
      apply List.map_congr_left
      intro m _
      simp only [Function.comp, Nat.succ_eq_add_one]
      have : i + N + m * N = i + (m + 1) * N := by rw [Nat.succ_mul]; omega
      rw [this]
    · have hz := ceilDiv_of_le t.rows i N hN (by omega)
      simp [OrdersProducerLoop, hi, hz]

theorem LineItemProducer_eq (maxKey : DBIdentifier) (N : Nat) (t : LineItemTable) (fuel : Nat)
    (hN : 1 ≤ N) (hsz : t.rows + N ≤ SIZE_T_RANGE) (hf : t.rows < fuel) :
    LineItemProducer maxKey N t fuel =
      some ((List.range (ceilDiv t.rows N)).map
        (fun m => (⟨false, true, fun j => lineItemSlot maxKey t (m * N) j⟩ :
          LineItemRowPipeData N))) := by
  have h := LineItemProducerLoop_eq maxKey N t hN hsz fuel 0
    (by have := ceilDiv_le t.rows N hN; simpa using by omega)
  simpa [LineItemProducer] using h

theorem OrdersProducer_eq (maxKey : DBIdentifier) (N : Nat) (t : OrdersTable) (fuel : Nat)
    (hN : 1 ≤ N) (hsz : t.rows + N ≤ SIZE_T_RANGE) (hf : t.rows < fuel) :
    OrdersProducer maxKey N t fuel =
      some ((List.range (ceilDiv t.rows N)).map
        (fun m => (⟨false, true, fun j => ordersSlot maxKey t (m * N) j⟩ :
          OrdersRowPipeData N))) := by
  have h := OrdersProducerLoop_eq maxKey N t hN hsz fuel 0
    (by have := ceilDiv_le t.rows N hN; simpa using by omega)
  simpa [OrdersProducer] using h

theorem getD_zero_spec {α : Type} (l : List α) (i : Nat) (d : α) (h : i < l.length) :
    l[i]? = some (l.getD i d) := by
  simp [List.getD_eq_getElem?_getD, List.getElem?_eq_getElem h]

theorem lineItemSlot_in_range (maxKey : DBIdentifier) (t : LineItemTable) (i j : Nat)
    (h : i + j < t.rows) (hsz : i + j < SIZE_T_RANGE)
    (hk : t.rows ≤ t.orderkey.length) (hm : t.rows ≤ t.shipmode.length)
    (hc : t.rows ≤ t.commitdate.length) (hs : t.rows ≤ t.shipdate.length)
    (hr : t.rows ≤ t.receiptdate.length) :
    (lineItemSlot maxKey t i j).valid = true ∧
    t.orderkey[i + j]? = some (lineItemSlot maxKey t i j).orderkey ∧
    t.shipmode[i + j]? = some (lineItemSlot maxKey t i j).shipmode ∧
    t.commitdate[i + j]? = some (lineItemSlot maxKey t i j).commitdate ∧
    t.shipdate[i + j]? = some (lineItemSlot maxKey t i j).shipdate ∧
    t.receiptdate[i + j]? = some (lineItemSlot maxKey t i j).receiptdate := by
  simp only [lineItemSlot, sizeAdd_eq i j hsz, h, decide_True, if_true]
  exact ⟨trivial, getD_zero_spec _ _ _ (by omega), getD_zero_spec _ _ _ (by omega),
    getD_zero_spec _ _ _ (by omega), getD_zero_spec _ _ _ (by omega),
    getD_zero_spec _ _ _ (by omega)⟩

theorem lineItemSlot_padding (maxKey : DBIdentifier) (t : LineItemTable) (i j : Nat)
    (h : t.rows ≤ i + j) (hsz : i + j < SIZE_T_RANGE) :
    lineItemSlot maxKey t i j = ⟨false, maxKey, 0, 0, 0, 0⟩ := by
  have hn : ¬ (i + j < t.rows) := by omega
  simp [lineItemSlot, sizeAdd_eq i j hsz, hn]

theorem ordersSlot_in_range (maxKey : DBIdentifier) (t : OrdersTable) (i j : Nat)
    (h : i + j < t.rows) (hsz : i + j < SIZE_T_RANGE)
    (hk : t.rows ≤ t.orderkey.length) (hp : t.rows ≤ t.orderpriority.length) :
    (ordersSlot maxKey t i j).valid = true ∧
    t.orderkey[i + j]? = some (ordersSlot maxKey t i j).orderkey ∧
    t.orderpriority[i + j]? = some (ordersSlot maxKey t i j).orderpriority := by
  simp only [ordersSlot, sizeAdd_eq i j hsz, h, decide_True, if_true]
  exact ⟨trivial, getD_zero_spec _ _ _ (by omega), getD_zero_spec _ _ _ (by omega)⟩

theorem ordersSlot_padding (maxKey : DBIdentifier) (t : OrdersTable) (i j : Nat)
    (h : t.rows ≤ i + j) (hsz : i + j < SIZE_T_RANGE) :
    ordersSlot maxKey t i j = ⟨false, maxKey, 0⟩ := by
  have hn : ¬ (i + j < t.rows) := by omega
  simp [ordersSlot, sizeAdd_eq i j hsz, hn]

theorem getElem?_range_map {β : Type} (f : Nat → β) (n k : Nat) (e : β)
    (h : ((List.range n).map f)[k]? = some e) : k < n ∧ e = f k := by
  rw [List.getElem?_map] at h
  by_cases hk : k < n
  · rw [List.getElem?_range hk] at h
    simp at h
    exact ⟨hk, h.symm⟩
  · have : (List.range n)[k]? = none := by
      apply List.getElem?_eq_none
      simp; omega
    rw [this] at h
    simp at h

/-! ## Properties of the producers -/

/-- C4: for every table with row count `rows` (columns of length at least `rows`,
indices within `size_t`) and batch width `N >= 1`, each producer writes exactly
`ceil(rows / N)` batches, in order, and slot `j` of batch `k` holds the row built
from the columns at index `k * N + j` with `valid = true` when `k * N + j < rows`,
and otherwise the padding row with `valid = false`, `orderkey` = the maximum key
and all other fields 0. -/
theorem producers_write_padded_batches (maxKey : DBIdentifier) (N M : Nat)
    (lt : LineItemTable) (ot : OrdersTable) (fuelL fuelO : Nat)
    (hN : 1 ≤ N) (hM : 1 ≤ M)
    (hLsz : lt.rows + N ≤ SIZE_T_RANGE) (hOsz : ot.rows + M ≤ SIZE_T_RANGE)
    (hLcols : lt.rows ≤ lt.orderkey.length ∧ lt.rows ≤ lt.shipmode.length ∧
      lt.rows ≤ lt.commitdate.length ∧ lt.rows ≤ lt.shipdate.length ∧
      lt.rows ≤ lt.receiptdate.length)
    (hOcols : ot.rows ≤ ot.orderkey.length ∧ ot.rows ≤ ot.orderpriority.length)
    (hfL : lt.rows < fuelL) (hfO : ot.rows < fuelO) :
    (∃ out, LineItemProducer maxKey N lt fuelL = some out ∧
      out.length = ceilDiv lt.rows N ∧
      ∀ (k : Nat) (e : LineItemRowPipeData N), out[k]? = some e → ∀ j : Fin N,
        (k * N + j < lt.rows →
          (e.data j).valid = true ∧
          lt.orderkey[k * N + j]? = some (e.data j).orderkey ∧
          lt.shipmode[k * N + j]? = some (e.data j).shipmode ∧
          lt.commitdate[k * N + j]? = some (e.data j).commitdate ∧
          lt.shipdate[k * N + j]? = some (e.data j).shipdate ∧
          lt.receiptdate[k * N + j]? = some (e.data j).receiptdate) ∧
        (lt.rows ≤ k * N + j → e.data j = ⟨false, maxKey, 0, 0, 0, 0⟩)) ∧
    (∃ out, OrdersProducer maxKey M ot fuelO = some out ∧
      out.length = ceilDiv ot.rows M ∧
      ∀ (k : Nat) (e : OrdersRowPipeData M), out[k]? = some e → ∀ j : Fin M,
        (k * M + j < ot.rows →
          (e.data j).valid = true ∧
          ot.orderkey[k * M + j]? = some (e.data j).orderkey ∧
          ot.orderpriority[k * M + j]? = some (e.data j).orderpriority) ∧
        (ot.rows ≤ k * M + j → e.data j = ⟨false, maxKey, 0⟩)) := by
  constructor
  · refine ⟨_, LineItemProducer_eq maxKey N lt fuelL hN hLsz hfL, by simp, ?_⟩
    intro k e he j
    obtain ⟨hk, rfl⟩ := getElem?_range_map _ _ _ _ he
    have hlt := mul_lt_of_lt_ceilDiv lt.rows N k hN hk
    have hj := j.isLt
    constructor
    · intro h
      exact lineItemSlot_in_range maxKey lt (k * N) j h (by omega) hLcols.1 hLcols.2.1
        hLcols.2.2.1 hLcols.2.2.2.1 hLcols.2.2.2.2
    · intro h
      exact lineItemSlot_padding maxKey lt (k * N) j h (by omega)
  · refine ⟨_, OrdersProducer_eq maxKey M ot fuelO hM hOsz hfO, by simp, ?_⟩
    intro k e he j
    obtain ⟨hk, rfl⟩ := getElem?_range_map _ _ _ _ he
    have hlt := mul_lt_of_lt_ceilDiv ot.rows M k hM hk
    have hj := j.isLt
    constructor
    · intro h
      exact ordersSlot_in_range maxKey ot (k * M) j h (by omega) hOcols.1 hOcols.2
    · intro h
      exact ordersSlot_padding maxKey ot (k * M) j h (by omega)

/-- Witness of C4: a LINEITEM table of 3 rows in batches of width 2 (two batches,
the last slot of the second one padded) and an ORDERS table of 2 rows in batches
of width 1. -/
theorem producers_write_padded_batches_witness :
    (∃ out, LineItemProducer 4294967295 2
        ⟨3, [1, 1, 2], [1, 2, 1], [2, 2, 2], [1, 1, 1], [5, 5, 5]⟩ 4 = some out ∧
      out.length = 2 ∧
      ∀ e, out[1]? = some e →
        (e.data 0).valid = true ∧ e.data 1 = ⟨false, 4294967295, 0, 0, 0, 0⟩) ∧
    (∃ out, OrdersProducer 4294967295 1 ⟨2, [1, 2], [1, 3]⟩ 3 = some out ∧ out.length = 2) :=
  have h := producers_write_padded_batches 4294967295 2 1
    ⟨3, [1, 1, 2], [1, 2, 1], [2, 2, 2], [1, 1, 1], [5, 5, 5]⟩ ⟨2, [1, 2], [1, 3]⟩ 4 3
    (by decide) (by decide) (by decide) (by decide) (by decide) (by decide) (by decide)
    (by decide)
  ⟨h.1.elim (fun out ho => ⟨out, ho.1, ho.2.1.trans (by decide),
      fun e he => ⟨((ho.2.2 1 e he 0).1 (by decide)).1, (ho.2.2 1 e he 1).2 (by decide)⟩⟩),
    h.2.elim (fun out ho => ⟨out, ho.1, ho.2.1.trans (by decide)⟩)⟩

/-- C5 (counterexample): on a one-row table with batch width 1 each producer
writes a single data envelope and no envelope with `done = true`; on an empty
table it writes nothing at all. -/
theorem producers_write_no_done_envelope :
    (LineItemProducer 4294967295 1 ⟨1, [1], [1], [2], [1], [5]⟩ 2).map
        (fun out => out.map (fun e => e.done)) = some [false] ∧
    (OrdersProducer 4294967295 1 ⟨1, [1], [1]⟩ 2).map
        (fun out => out.map (fun e => e.done)) = some [false] ∧
    (LineItemProducer 4294967295 1 ⟨0, [], [], [], [], []⟩ 1).map
        (fun out => out.map (fun e => e.done)) = some [] ∧
    (OrdersProducer 4294967295 1 ⟨0, [], []⟩ 1).map
        (fun out => out.map (fun e => e.done)) = some [] := by
  decide

/-- C5 (amended): for every table, the sequence of envelopes a producer writes is
exactly its `ceil(rows / N)` data envelopes, each with `done = false` and
`valid = true`; no done envelope is written on the producer channels. -/
theorem producers_write_only_data_envelopes (maxKey : DBIdentifier) (N M : Nat)
    (lt : LineItemTable) (ot : OrdersTable) (fuelL fuelO : Nat)
    (hN : 1 ≤ N) (hM : 1 ≤ M)
    (hLsz : lt.rows + N ≤ SIZE_T_RANGE) (hOsz : ot.rows + M ≤ SIZE_T_RANGE)
    (hfL : lt.rows < fuelL) (hfO : ot.rows < fuelO) :
    (∃ out, LineItemProducer maxKey N lt fuelL = some out ∧
      out.length = ceilDiv lt.rows N ∧ ∀ e ∈ out, e.done = false ∧ e.valid = true) ∧
    (∃ out, OrdersProducer maxKey M ot fuelO = some out ∧
      out.length = ceilDiv ot.rows M ∧ ∀ e ∈ out, e.done = false ∧ e.valid = true) := by
  constructor
  · refine ⟨_, LineItemProducer_eq maxKey N lt fuelL hN hLsz hfL, by simp, ?_⟩
    intro e he
    simp only [List.mem_map] at he
    obtain ⟨m, _, rfl⟩ := he
    exact ⟨rfl, rfl⟩
  · refine ⟨_, OrdersProducer_eq maxKey M ot fuelO hM hOsz hfO, by simp, ?_⟩
    intro e he
    simp only [List.mem_map] at he
    obtain ⟨m, _, rfl⟩ := he
    exact ⟨rfl, rfl⟩

/-- Witness of C5 (amended): the 3-row LINEITEM table in batches of 2 and the
2-row ORDERS table in batches of 1. -/
theorem producers_write_only_data_envelopes_witness :
    (∃ out, LineItemProducer 4294967295 2
        ⟨3, [1, 1, 2], [1, 2, 1], [2, 2, 2], [1, 1, 1], [5, 5, 5]⟩ 4 = some out ∧
      ∀ e ∈ out, e.done = false ∧ e.valid = true) ∧
    (∃ out, OrdersProducer 4294967295 1 ⟨2, [1, 2], [1, 3]⟩ 3 = some out ∧
      ∀ e ∈ out, e.done = false ∧ e.valid = true) :=
  have h := producers_write_only_data_envelopes 4294967295 2 1
    ⟨3, [1, 1, 2], [1, 2, 1], [2, 2, 2], [1, 1, 1], [5, 5, 5]⟩ ⟨2, [1, 2], [1, 3]⟩ 4 3
    (by decide) (by decide) (by decide) (by decide) (by decide) (by decide)
  ⟨h.1.elim (fun out ho => ⟨out, ho.1, ho.2.2⟩),
    h.2.elim (fun out ho => ⟨out, ho.1, ho.2.2⟩)⟩

end Query12
